import Mathlib

/-!
Verification of the goal-tracking data pipeline (`src/api_calls.rs`,
`src/main.rs`) against its natural-language specification.

Calendar dates model `chrono::NaiveDate` (proleptic Gregorian calendar);
`Date.toDays` / `Date.ofDays` are the standard civil-calendar conversions,
used to model chrono's date subtraction (`num_days`) and the
`date_naive()` of a shifted timestamp.
-/

namespace NHLGT

/-- A calendar date, modelling `chrono::NaiveDate` (year, month, day). -/
structure Date where
  year : Int
  month : Nat
  day : Nat
deriving DecidableEq, Repr

/-- Day number of a civil date (days since 1970-01-01, proleptic Gregorian).
Models the day arithmetic `chrono` performs for `NaiveDate` subtraction. -/
def Date.toDays (dt : Date) : Int :=
  let y : Int := if dt.month ≤ 2 then dt.year - 1 else dt.year
  let era : Int := (if 0 ≤ y then y else y - 399) / 400
  let yoe : Int := y - era * 400
  let mp : Int := if 2 < dt.month then (dt.month : Int) - 3 else (dt.month : Int) + 9
  let doy : Int := (153 * mp + 2) / 5 + (dt.day : Int) - 1
  let doe : Int := yoe * 365 + yoe / 4 - yoe / 100 + doy
  era * 146097 + doe - 719468

/-- Civil date of a day number (inverse of `Date.toDays`). -/
def Date.ofDays (z0 : Int) : Date :=
  let z : Int := z0 + 719468
  let era : Int := (if 0 ≤ z then z else z - 146096) / 146097
  let doe : Int := z - era * 146097
  let yoe : Int := (doe - doe / 1460 + doe / 36524 - doe / 146096) / 365
  let y : Int := yoe + era * 400
  let doy : Int := doe - (365 * yoe + yoe / 4 - yoe / 100)
  let mp : Int := (5 * doy + 2) / 153
  let d : Int := doy - (153 * mp + 2) / 5 + 1
  let m : Int := if mp < 10 then mp + 3 else mp - 9
  { year := if m ≤ 2 then y + 1 else y, month := m.toNat, day := d.toNat }

/-- Zero-pad a natural number to at least two digits (chrono `%m`, `%d`). -/
def pad2 (n : Nat) : String :=
  if n < 10 then "0" ++ toString n else toString n

/-- Zero-pad a natural number to at least four digits (chrono `%Y`). -/
def pad4 (n : Nat) : String :=
  if n < 10 then "000" ++ toString n
  else if n < 100 then "00" ++ toString n
  else if n < 1000 then "0" ++ toString n
  else toString n

/-- `%Y-%m-%d` formatting of a date, as `chrono`'s `format("%Y-%m-%d")`
and the `Display` instance of `NaiveDate` produce it. -/
def formatYMD (dt : Date) : String :=
  (if dt.year < 0 then "-" ++ pad4 dt.year.natAbs else pad4 dt.year.natAbs)
    ++ "-" ++ pad2 dt.month ++ "-" ++ pad2 dt.day

/-- Whether a (proleptic Gregorian) year is a leap year. -/
def isLeapYear (y : Int) : Bool :=
  (y % 4 == 0 && y % 100 != 0) || (y % 400 == 0)

/-- Number of days in a month. -/
def daysInMonth (y : Int) (m : Nat) : Nat :=
  if m = 2 then (if isLeapYear y then 29 else 28)
  else if m = 4 ∨ m = 6 ∨ m = 9 ∨ m = 11 then 30
  else 31

/-- Numeric value of a decimal digit character, if it is one. -/
def digitVal (c : Char) : Option Nat :=
  if '0' ≤ c ∧ c ≤ '9' then some (c.toNat - 48) else none

/-- Value of a nonempty all-digit character list, read in base 10. -/
def digitsVal (cs : List Char) : Option Nat :=
  match cs with
  | [] => none
  | _ =>
    cs.foldl (fun acc c =>
      match acc, digitVal c with
      | some n, some d => some (n * 10 + d)
      | _, _ => none) (some 0)

/-- Parse of a canonical `YYYY-MM-DD` date string, modelling
`NaiveDate::parse_from_str(s, "%Y-%m-%d")` on its canonical inputs
(four-digit year, two-digit month and day, with validity checks). -/
def parseDateStr (s : String) : Option Date :=
  match s.data with
  | [y1, y2, y3, y4, '-', m1, m2, '-', d1, d2] =>
    match digitsVal [y1, y2, y3, y4], digitsVal [m1, m2], digitsVal [d1, d2] with
    | some y, some m, some d =>
      if 1 ≤ m ∧ m ≤ 12 ∧ 1 ≤ d ∧ d ≤ daysInMonth (y : Int) m then
        some { year := (y : Int), month := m, day := d }
      else none
    | _, _, _ => none
  | _ => none

/-! ## `WeekOrShorterPeriod` (src/api_calls.rs, `week_or_shorter_period`) -/

/-- Helper struct that's guaranteed to be a week or shorter; the Rust module
makes the fields private so the validating constructor is the only producer. -/
structure WeekOrShorterPeriod where
  start_date : Date
  end_date : Date
deriving DecidableEq, Repr

/-- `WeekOrShorterPeriod::try_new`: succeeds when the signed day difference
`end.toDays - start.toDays` is between 0 and 6, otherwise returns the
`InvalidPeriod` error message built by the source. -/
def WeekOrShorterPeriod.try_new (start_date end_date : Date) :
    Except String WeekOrShorterPeriod :=
  let diff : Int := end_date.toDays - start_date.toDays
  if diff ≤ 6 ∧ 0 ≤ diff then
    .ok { start_date := start_date, end_date := end_date }
  else
    .error ("Invalid start and end dates: " ++ formatYMD start_date ++ " and "
      ++ formatYMD end_date
      ++ ".  The time period needs to be a week or shorter, but is actually "
      ++ toString (diff + 1) ++ " days")

/-- `WeekOrShorterPeriod::get_start_date`: the start date as `YYYY-MM-DD`. -/
def WeekOrShorterPeriod.get_start_date (p : WeekOrShorterPeriod) : String :=
  formatYMD p.start_date

/-- `WeekOrShorterPeriod::within`: `start ≤ date && date ≤ end` under
chrono's calendar order (modelled through day numbers). -/
def WeekOrShorterPeriod.within (p : WeekOrShorterPeriod) (date : Date) : Bool :=
  decide (p.start_date.toDays ≤ date.toDays) && decide (date.toDays ≤ p.end_date.toDays)

/-! ## Schedule lookup (src/api_calls.rs, `get_game_ids_period`) -/

/-- A single game of the schedule response (`Game` in src/api_calls.rs). -/
structure Game where
  id : Nat
  season : Nat
  startTimeUTC : String
  venueUTCOffset : String
deriving DecidableEq, Repr

/-- Games on one date of the schedule response (`GameDaySchedule`). -/
structure GameDaySchedule where
  date : String
  games : List Game
deriving DecidableEq, Repr

/-- The entire schedule-endpoint response (`ScheduleResponse`). -/
structure ScheduleResponse where
  gameWeek : List GameDaySchedule
deriving DecidableEq, Repr

/-- Observable result of running a fallible Rust function: a returned
`Ok` value, a returned `Err`, or an aborting `panic!` (from `expect`). -/
inductive RunRes (α : Type) where
  | ok (val : α)
  | err (msg : String)
  | crash (msg : String)
deriving DecidableEq, Repr

/-- The day loop of `get_game_ids_period`: for each returned day, parse its
date with `expect` (a panic on failure, modelled by `crash` carrying the
`expect` message), and keep the day's games exactly when the parsed date is
`within` the period. -/
def collectGames (week : WeekOrShorterPeriod) :
    List GameDaySchedule → RunRes (List Game)
  | [] => .ok []
  | day :: days =>
    match parseDateStr day.date with
    | none => .crash ("Invalid date: " ++ day.date)
    | some game_date =>
      match collectGames week days with
      | .crash m => .crash m
      | .err m => .err m
      | .ok rest =>
        .ok (if week.within game_date then day.games ++ rest else rest)

/-- `get_game_ids_period`: the upstream fetch/decode outcome is passed in as
`fetched` (transport and JSON-parse failures propagate via `?` as a returned
error); on a decoded response the day loop post-filters against `within`. -/
def get_game_ids_period (fetched : Except String ScheduleResponse)
    (week : WeekOrShorterPeriod) : RunRes (List Game) :=
  match fetched with
  | .error e => .err e
  | .ok resp => collectGames week resp.gameWeek

/-- Whether a returned day is kept by `get_game_ids_period`: its date string
parses and the parsed date lies within the period. -/
def dayKept (week : WeekOrShorterPeriod) (day : GameDaySchedule) : Bool :=
  match parseDateStr day.date with
  | some d => week.within d
  | none => false

/-! ## Canonical goal data and Variant-B extraction
(src/api_calls.rs, `parse_goal_data`) -/

/-- A side of the ice (`IceSide`). -/
inductive IceSide where
  | Left
  | Right
deriving DecidableEq, Repr

/-- A team reference carrying its id (`Team`). -/
structure Team where
  id : Nat
deriving DecidableEq, Repr

/-- Generic event details; the owner team id is optional (`EventDetails`). -/
structure EventDetails where
  eventOwnerTeamId : Option Nat
deriving DecidableEq, Repr

/-- Period info of an event (`PeriodInfo`). -/
structure PeriodInfo where
  periodType : String
deriving DecidableEq, Repr

/-- A play-by-play event (`Event`). -/
structure Event where
  eventId : Nat
  homeTeamDefendingSide : String
  typeDescKey : String
  pptReplayUrl : Option String
  details : Option EventDetails
  periodDescriptor : PeriodInfo
deriving DecidableEq, Repr

/-- The play-by-play response (`PbpResponse`). -/
structure PbpResponse where
  plays : List Event
  id : Nat
  season : Nat
  homeTeam : Team
  gameDate : String
deriving DecidableEq, Repr

/-- Canonical per-goal record (`GoalDetails`). -/
structure GoalDetails where
  event_id : Nat
  ppt_replay_url : Option String
  scoring_team_id : Nat
  home_team_defending_side : IceSide
deriving DecidableEq, Repr

/-- Canonical per-game record (`GameExportData`). -/
structure GameExportData where
  goals : List GoalDetails
  home_team_id : Nat
deriving DecidableEq, Repr

/-- The `"left"`/`"right"` chain both extractors use to turn a
defending-side string into an `IceSide`, `none` for anything else. -/
def sideOfString (s : String) : Option IceSide :=
  if s = "left" then some IceSide.Left
  else if s = "right" then some IceSide.Right
  else none

/-- The `retain` predicate of `parse_goal_data`: keep goal events outside
the shootout. -/
def keepPlay (e : Event) : Bool :=
  decide (e.typeDescKey = "goal") && decide (e.periodDescriptor.periodType ≠ "SO")

/-- The per-event loop of `parse_goal_data`: an unrecognized side string,
an absent `details`, or an absent owner team id skips that single goal
(the source logs a diagnostic and `continue`s); otherwise one
`GoalDetails` is emitted. -/
def goalLoop : List Event → List GoalDetails
  | [] => []
  | e :: es =>
    match sideOfString e.homeTeamDefendingSide with
    | none => goalLoop es
    | some side =>
      match e.details with
      | none => goalLoop es
      | some details =>
        match details.eventOwnerTeamId with
        | none => goalLoop es
        | some team =>
          { event_id := e.eventId, ppt_replay_url := e.pptReplayUrl,
            scoring_team_id := team, home_team_defending_side := side }
            :: goalLoop es

/-- `parse_goal_data`: retain non-shootout goal events, then run the
per-event loop; the home team id is copied from the response. Total. -/
def parse_goal_data (pbp : PbpResponse) : GameExportData :=
  { goals := goalLoop (pbp.plays.filter keepPlay),
    home_team_id := pbp.homeTeam.id }

/-- Reference definition of Variant-B extraction, written from the spec's
words: keep exactly the events with type `"goal"` outside the shootout, in
order, and convert each kept event to at most one canonical goal —
skipping it when the side string is unrecognized, the nested details are
absent, or the owner team id is absent; a missing tracking URL is kept as
`none`. -/
def convGoalB (e : Event) : Option GoalDetails :=
  match sideOfString e.homeTeamDefendingSide, e.details with
  | some side, some d =>
    match d.eventOwnerTeamId with
    | some team =>
      some { event_id := e.eventId, ppt_replay_url := e.pptReplayUrl,
             scoring_team_id := team, home_team_defending_side := side }
    | none => none
  | _, _ => none

/-- Spec-reference Variant-B extractor (see `convGoalB`). -/
def specVariantB (pbp : PbpResponse) : GameExportData :=
  { goals := (pbp.plays.filter keepPlay).filterMap convGoalB,
    home_team_id := pbp.homeTeam.id }

/-! ## Variant-A extraction (src/api_calls.rs, `extract_export_game_data`) -/

/-- A goal entry of the landing response (`GoalInfo`). -/
structure GoalInfo where
  eventId : Nat
  pptReplayUrl : Option String
  homeTeamDefendingSide : String
  isHome : Bool
deriving DecidableEq, Repr

/-- Period descriptor of the landing response (`PeriodDetails`). -/
structure PeriodDetails where
  periodType : String
deriving DecidableEq, Repr

/-- One scoring period of the landing response (`Period`). -/
structure Period where
  periodDescriptor : PeriodDetails
  goals : List GoalInfo
deriving DecidableEq, Repr

/-- Scoring summary of the landing response (`Summary`). -/
structure Summary where
  scoring : List Period
deriving DecidableEq, Repr

/-- The landing-endpoint response (`LandingResponse`). -/
structure LandingResponse where
  id : Nat
  season : Nat
  gameDate : String
  homeTeam : Team
  awayTeam : Team
  summary : Summary
deriving DecidableEq, Repr

/-- The `InvalidDefendingSide` error message Variant A returns. -/
def invalidSideMsg (eventId gameId : Nat) : String :=
  "Invalid side for goal " ++ toString eventId ++ " in game " ++ toString gameId

/-- The inner goal loop of `extract_export_game_data`: resolve the scoring
team from `isHome`, parse the side string, and abort the whole extraction
with the `InvalidDefendingSide` error on the first unrecognized side
(the Rust `return Err(...)` inside the loop). -/
def goalsOfPeriod (resp : LandingResponse) :
    List GoalInfo → Except String (List GoalDetails)
  | [] => .ok []
  | g :: gs =>
    let scoring_team_id := if g.isHome then resp.homeTeam.id else resp.awayTeam.id
    match sideOfString g.homeTeamDefendingSide with
    | none => .error (invalidSideMsg g.eventId resp.id)
    | some side =>
      match goalsOfPeriod resp gs with
      | .error e => .error e
      | .ok rest =>
        .ok ({ event_id := g.eventId, ppt_replay_url := g.pptReplayUrl,
               scoring_team_id := scoring_team_id,
               home_team_defending_side := side } :: rest)

/-- The outer period loop of `extract_export_game_data`: shootout periods
are skipped (`continue`), the goals of the other periods are emitted in
period order. -/
def extractLoop (resp : LandingResponse) :
    List Period → Except String (List GoalDetails)
  | [] => .ok []
  | p :: ps =>
    if p.periodDescriptor.periodType = "SO" then extractLoop resp ps
    else
      match goalsOfPeriod resp p.goals with
      | .error e => .error e
      | .ok gs =>
        match extractLoop resp ps with
        | .error e => .error e
        | .ok rest => .ok (gs ++ rest)

/-- `extract_export_game_data`: run the period loop and pair the goals with
the response's home team id. -/
def extract_export_game_data (resp : LandingResponse) :
    Except String GameExportData :=
  match extractLoop resp resp.summary.scoring with
  | .error e => .error e
  | .ok goals => .ok { goals := goals, home_team_id := resp.homeTeam.id }

/-- Reference conversion of one landing goal entry, written from the spec's
words: scoring team is the home id when `isHome` else the away id, the side
string must be `"left"` or `"right"`, anything else is the
`InvalidDefendingSide` hard failure. -/
def convGoalA (resp : LandingResponse) (g : GoalInfo) : Except String GoalDetails :=
  match sideOfString g.homeTeamDefendingSide with
  | some side =>
    .ok { event_id := g.eventId, ppt_replay_url := g.pptReplayUrl,
          scoring_team_id := if g.isHome then resp.homeTeam.id else resp.awayTeam.id,
          home_team_defending_side := side }
  | none => .error (invalidSideMsg g.eventId resp.id)

/-- Convert every element or fail at the first error (no partial list). -/
def mapOrFail (f : α → Except String β) : List α → Except String (List β)
  | [] => .ok []
  | a :: as =>
    match f a with
    | .error e => .error e
    | .ok b =>
      match mapOrFail f as with
      | .error e => .error e
      | .ok bs => .ok (b :: bs)

/-- Spec-reference Variant-A extractor, written from the spec's words:
drop the shootout periods, flatten the remaining goal entries in period
order then goal order, convert each entry, failing the whole extraction on
the first invalid side; the result's home team id is the response's. -/
def specVariantA (resp : LandingResponse) : Except String GameExportData :=
  let entries :=
    (resp.summary.scoring.filter
      (fun p => decide (p.periodDescriptor.periodType ≠ "SO"))).flatMap
      (fun p => p.goals)
  match mapOrFail (convGoalA resp) entries with
  | .error e => .error e
  | .ok gs => .ok { goals := gs, home_team_id := resp.homeTeam.id }

/-! ## Expressing one game in both upstream shapes (claim C3)

`pbpOfLanding` renders a landing response as the play-by-play response the
spec calls "the same game expressed in the other shape": one `"goal"` event
per landing goal entry, in the same order, tagged with its period's type,
carrying the same event id, side string and tracking URL, and whose nested
details hold the owner team id the landing entry's `isHome` flag denotes. -/

/-- The play-by-play event equivalent to one landing goal entry. -/
def eventOfGoal (resp : LandingResponse) (pt : String) (g : GoalInfo) : Event :=
  { eventId := g.eventId,
    homeTeamDefendingSide := g.homeTeamDefendingSide,
    typeDescKey := "goal",
    pptReplayUrl := g.pptReplayUrl,
    details := some (EventDetails.mk
      (some (if g.isHome then resp.homeTeam.id else resp.awayTeam.id))),
    periodDescriptor := { periodType := pt } }

/-- The play-by-play response equivalent to a landing response. -/
def pbpOfLanding (resp : LandingResponse) : PbpResponse :=
  { plays := resp.summary.scoring.flatMap
      (fun p => p.goals.map (eventOfGoal resp p.periodDescriptor.periodType)),
    id := resp.id, season := resp.season,
    homeTeam := resp.homeTeam, gameDate := resp.gameDate }

/-! ## Game start times and `adjust_to_local_time` (src/main.rs) -/

/-- A UTC timestamp as `run_game` parses it from `startTimeUTC`
(`"%Y-%m-%dT%H:%M:%SZ %z"` with the appended `+0000` offset). -/
structure DateTimeUtc where
  date : Date
  hour : Nat
  minute : Nat
  second : Nat
deriving DecidableEq, Repr

/-- Parse of a canonical `YYYY-MM-DDThh:mm:ssZ` start-time string. -/
def parseStartTime (s : String) : Option DateTimeUtc :=
  match s.data with
  | [y1, y2, y3, y4, '-', mo1, mo2, '-', d1, d2, 'T',
     h1, h2, ':', mi1, mi2, ':', s1, s2, 'Z'] =>
    match parseDateStr (String.mk [y1, y2, y3, y4, '-', mo1, mo2, '-', d1, d2]),
        digitsVal [h1, h2], digitsVal [mi1, mi2], digitsVal [s1, s2] with
    | some d, some h, some mi, some sec =>
      if h ≤ 23 ∧ mi ≤ 59 ∧ sec ≤ 59 then
        some { date := d, hour := h, minute := mi, second := sec }
      else none
    | _, _, _, _ => none
  | _ => none

/-- `i64::from_str`: an optional sign followed by at least one digit. -/
def parseIntStr (cs : List Char) : Option Int :=
  match cs with
  | '+' :: rest => (digitsVal rest).map (fun n => (n : Int))
  | '-' :: rest => (digitsVal rest).map (fun n => -(n : Int))
  | _ => (digitsVal cs).map (fun n => (n : Int))

/-- Seconds into the day of a timestamp. -/
def DateTimeUtc.secondsOfDay (t : DateTimeUtc) : Nat :=
  t.hour * 3600 + t.minute * 60 + t.second

/-- The calendar date of a timestamp shifted by a signed number of minutes
(chrono's `Add<TimeDelta>` followed by `date_naive()`). -/
def shiftedDate (t : DateTimeUtc) (minutes : Int) : Date :=
  Date.ofDays ((t.date.toDays * 86400 + (t.secondsOfDay : Int) + minutes * 60) / 86400)

/-- `adjust_to_local_time` (src/main.rs): the hour part is parsed from the
offset's first three characters (sign included), the minute part from
characters four and five (no sign), and the shift applied is
`hours * 60 + minutes` minutes. `TimeDelta::try_minutes` cannot fail on
the magnitudes a three-character hour field allows, so it is modelled as
always succeeding. -/
def adjust_to_local_time (start_time_utc : DateTimeUtc) (venue_offset : String) :
    Except String Date :=
  match parseIntStr (venue_offset.data.take 3),
      parseIntStr ((venue_offset.data.drop 4).take 2) with
  | some hours_adj, some minutes_adj =>
    .ok (shiftedDate start_time_utc (hours_adj * 60 + minutes_adj))
  | _, _ => .error "invalid component in venue offset"

/-- Reference local date written from claim C10's words: the whole signed
offset (sign applying to hours and minutes alike) is added to the UTC
start time, and the calendar date of the result is taken. -/
def claimLocalDate (t : DateTimeUtc) (sign : Int) (offHours offMinutes : Nat) : Date :=
  shiftedDate t (sign * ((offHours : Int) * 60 + (offMinutes : Int)))

/-! ## `run_game` (src/main.rs)

`run_game` talks to the outside world: it creates the game directory,
fetches the boxscore and the play-by-play response, fetches and writes one
tracking artifact per goal, and writes the combined `pbp_boxscore.json`.
The shallow embedding passes the outcome of each upstream interaction in a
`GameEnv` and records every interaction in a call trace, so that theorems
can speak about which endpoints a run consulted and which paths it wrote.
The landing endpoint's outcome is part of the environment, but the source
of `run_game` never requests it. -/

/-- Boxscore info (`BoxscoreInfo` in src/api_calls.rs). -/
structure BoxscoreInfo where
  home_team_id : Nat
deriving DecidableEq, Repr

/-- Decidable equality of `Except` results, used to evaluate run outcomes
on concrete inputs. -/
instance {ε α : Type} [DecidableEq ε] [DecidableEq α] : DecidableEq (Except ε α) :=
  fun x y =>
    match x, y with
    | .ok a, .ok b =>
      if h : a = b then .isTrue (by rw [h])
      else .isFalse (by intro hc; cases hc; exact h rfl)
    | .error a, .error b =>
      if h : a = b then .isTrue (by rw [h])
      else .isFalse (by intro hc; cases hc; exact h rfl)
    | .ok _, .error _ => .isFalse (by intro hc; cases hc)
    | .error _, .ok _ => .isFalse (by intro hc; cases hc)

/-- One externally visible interaction of `run_game`. -/
inductive Call where
  | mkdirCall (path : String)
  | boxscoreCall
  | pbpCall
  | landingCall
  | saveCall (path : String)
  | writeBoxCall (path : String)
deriving DecidableEq, Repr

/-- Outcomes of the upstream interactions available to one game run. -/
structure GameEnv where
  mkdirResult : Except String Unit
  boxscore : Except String BoxscoreInfo
  pbp : Except String PbpResponse
  landing : Except String LandingResponse
  writeBox : Except String Unit
deriving DecidableEq, Repr

/-- Result and call trace of one `run_game` run. -/
structure RunOutcome where
  result : Except String Unit
  trace : List Call
deriving DecidableEq, Repr

/-- The game date `run_game` uses: the offset-adjusted date when the venue
offset parses, otherwise the unshifted UTC date (the source logs and falls
back to `date_naive()`). -/
def adjustedDateOf (dt : DateTimeUtc) (venue_offset : String) : Date :=
  match adjust_to_local_time dt venue_offset with
  | .ok d => d
  | .error _ => dt.date

/-- The output directory `run_game` builds:
`{output_folder}/{season}/{adjusted date}/{game id}`. -/
def gamePathOf (output_folder : String) (game : Game) (dt : DateTimeUtc) : String :=
  output_folder ++ "/" ++ toString game.season ++ "/"
    ++ formatYMD (adjustedDateOf dt game.venueUTCOffset) ++ "/" ++ toString game.id

/-- `run_game` (src/main.rs): parse the start time (error on failure),
derive the adjusted date and the game path, create the directory, fetch
the boxscore, fetch the play-by-play, extract the goals with
`parse_goal_data`, attempt one tracking save per goal (failures are only
logged), and write the combined `pbp_boxscore.json`. Each step's failure
aborts the run with an error naming that step's cause. -/
def run_game (env : GameEnv) (game : Game) (output_folder : String) : RunOutcome :=
  match parseStartTime game.startTimeUTC with
  | none =>
    { result := .error ("Error when converting start time of game "
        ++ toString game.id ++ " into a date"),
      trace := [] }
  | some game_date =>
    let game_path := gamePathOf output_folder game game_date
    match env.mkdirResult with
    | .error e =>
      { result := .error ("Error when creating path " ++ game_path
          ++ " for game " ++ toString game.id ++ ": " ++ e),
        trace := [.mkdirCall game_path] }
    | .ok _ =>
      match env.boxscore with
      | .error e =>
        { result := .error ("Error retrieving boxscore info for game "
            ++ toString game.id ++ ": " ++ e),
          trace := [.mkdirCall game_path, .boxscoreCall] }
      | .ok _ =>
        match env.pbp with
        | .error e =>
          { result := .error ("Error retrieving play-by-play info for game "
              ++ toString game.id ++ ": " ++ e),
            trace := [.mkdirCall game_path, .boxscoreCall, .pbpCall] }
        | .ok pbp =>
          let goals := parse_goal_data pbp
          let saveCalls := goals.goals.map
            (fun goal => Call.saveCall (game_path ++ "/" ++ toString goal.event_id))
          let boxPath := game_path ++ "/pbp_boxscore.json"
          match env.writeBox with
          | .error e =>
            { result := .error e,
              trace := [.mkdirCall game_path, .boxscoreCall, .pbpCall]
                ++ saveCalls ++ [.writeBoxCall boxPath] }
          | .ok _ =>
            { result := .ok (),
              trace := [.mkdirCall game_path, .boxscoreCall, .pbpCall]
                ++ saveCalls ++ [.writeBoxCall boxPath] }

/-! ## Command-line dates and the period walk (src/main.rs) -/

/-- The argument loop of `parse_date_args`: before parsing each further
argument the length check rejects a third one; each argument is parsed as
`YYYY-MM-DD`, a parse failure propagating as an error. -/
def collectDates : List String → List Date → Except String (List Date)
  | [], acc => .ok acc
  | a :: as, acc =>
    if acc.length > 1 then .error "Received too many arguments"
    else
      match parseDateStr a with
      | none => .error ("premature end of input: " ++ a)
      | some d => collectDates as (acc ++ [d])

/-- `parse_date_args` (src/main.rs): parse the command-line dates; fewer
than two is an error. The source performs no ordering check on the pair,
its doc comment notwithstanding. -/
def parse_date_args (args : List String) : Except String (Date × Date) :=
  match collectDates args [] with
  | .error e => .error e
  | .ok ds =>
    match ds with
    | d0 :: d1 :: _ => .ok (d0, d1)
    | _ => .error "Received too few arguments (need 2 dates)"

/-- The week stride of `main`'s `while start_date <= end_date` loop, on day
numbers: the start dates (one schedule query each) visited before the loop
exits. -/
def strideStarts (s e : Int) : List Int :=
  if s ≤ e then s :: strideStarts (s + 7) e else []
termination_by (e + 1 - s).toNat
decreasing_by
  simp_wf
  omega

/-- The schedule queries `main` issues for a date range: one per stride
start. An empty list means the run performs no network activity. -/
def mainScheduleQueries (start_date end_date : Date) : List Date :=
  (strideStarts start_date.toDays end_date.toDays).map Date.ofDays

/-- `main`'s result as far as argument handling decides it: an argument
error is returned, otherwise the period walk never returns an error
(every period-level failure is logged and skipped). -/
def mainResult (args : List String) : Except String Unit :=
  match parse_date_args args with
  | .error e => .error e
  | .ok _ => .ok ()

/-! ## Lemmas about the extraction loops -/

/-- The per-event loop of Variant B is the `filterMap` of `convGoalB`. -/
theorem goalLoop_eq_filterMap (es : List Event) :
    goalLoop es = es.filterMap convGoalB := by
  induction es with
  | nil => rfl
  | cons e es ih =>
    cases h1 : sideOfString e.homeTeamDefendingSide with
    | none =>
      simp only [goalLoop, List.filterMap_cons, convGoalB, h1]
      exact ih
    | some side =>
      cases h2 : e.details with
      | none =>
        simp only [goalLoop, List.filterMap_cons, convGoalB, h1, h2]
        exact ih
      | some d =>
        cases h3 : d.eventOwnerTeamId with
        | none =>
          simp only [goalLoop, List.filterMap_cons, convGoalB, h1, h2, h3]
          exact ih
        | some team =>
          simp only [goalLoop, List.filterMap_cons, convGoalB, h1, h2, h3]
          rw [ih]

/-- The inner goal loop of Variant A is `mapOrFail` of `convGoalA`. -/
theorem goalsOfPeriod_eq_mapOrFail (r : LandingResponse) (gs : List GoalInfo) :
    goalsOfPeriod r gs = mapOrFail (convGoalA r) gs := by
  induction gs with
  | nil => rfl
  | cons g gs ih =>
    simp only [goalsOfPeriod, mapOrFail, convGoalA]
    cases sideOfString g.homeTeamDefendingSide with
    | none => rfl
    | some side =>
      rw [← ih]
      cases goalsOfPeriod r gs <;> rfl

/-- `mapOrFail` over an appended list: the first failure wins, two
successes concatenate. -/
theorem mapOrFail_append (f : α → Except String β) (l1 l2 : List α) :
    mapOrFail f (l1 ++ l2)
      = match mapOrFail f l1 with
        | .error e => .error e
        | .ok bs =>
          match mapOrFail f l2 with
          | .error e => .error e
          | .ok cs => .ok (bs ++ cs) := by
  induction l1 with
  | nil =>
    simp only [List.nil_append, mapOrFail]
    cases mapOrFail f l2 <;> rfl
  | cons a as ih =>
    simp only [List.cons_append, mapOrFail, List.append_eq]
    rw [ih]
    cases hfa : f a with
    | error e => rfl
    | ok b =>
      cases h1 : mapOrFail f as with
      | error e => rfl
      | ok bs =>
        cases h2 : mapOrFail f l2 <;> rfl

/-- The period loop of Variant A equals `mapOrFail` of the flattened goal
entries of the non-shootout periods. -/
theorem extractLoop_eq_mapOrFail (r : LandingResponse) (ps : List Period) :
    extractLoop r ps
      = mapOrFail (convGoalA r)
          ((ps.filter (fun p => decide (p.periodDescriptor.periodType ≠ "SO"))).flatMap
            (fun p => p.goals)) := by
  induction ps with
  | nil => rfl
  | cons p ps ih =>
    by_cases hso : p.periodDescriptor.periodType = "SO"
    · have hdrop : decide (p.periodDescriptor.periodType ≠ "SO") = false := by
        simp [hso]
      simp only [extractLoop, if_pos hso, List.filter_cons, hdrop,
        Bool.false_eq_true, if_false]
      exact ih
    · have hkeep : decide (p.periodDescriptor.periodType ≠ "SO") = true := by
        simp [hso]
      simp only [extractLoop, if_neg hso, List.filter_cons, hkeep, if_true,
        List.flatMap_cons, mapOrFail_append]
      rw [goalsOfPeriod_eq_mapOrFail, ih]
      cases hA : mapOrFail (convGoalA r) p.goals with
      | error e => rfl
      | ok gs =>
        cases hB : mapOrFail (convGoalA r)
            ((List.filter (fun p => decide (p.periodDescriptor.periodType ≠ "SO")) ps).flatMap
              fun p => p.goals) with
        | error e => rfl
        | ok rest => rfl

/-! ## Claims C1 and C2 -/

/-- Claim C1: Variant-A extraction (`extract_export_game_data`) agrees with
the reference definition written from the spec: iterate the scoring periods
in order, skip the shootout periods, emit one canonical goal per remaining
entry — scoring team the home id when `isHome` else the away id, side
`Left` for `"left"` and `Right` for `"right"` — fail the whole extraction
with the `InvalidDefendingSide` error on any other side string, keep period
order then goal order, and carry the response's home team id. -/
theorem c1_variantA_matches_spec (resp : LandingResponse) :
    extract_export_game_data resp = specVariantA resp := by
  simp only [extract_export_game_data, specVariantA, extractLoop_eq_mapOrFail]

/-- Claim C2: Variant-B extraction (`parse_goal_data`) agrees with the
reference definition written from the spec: keep exactly the non-shootout
`"goal"` events in order, convert each to one canonical goal, skipping the
single goal (extraction never fails as a whole) when the side string is
unrecognized, the nested details are absent, or the owner team id is
absent, and keep goals whose tracking URL is absent. -/
theorem c2_variantB_matches_spec (pbp : PbpResponse) :
    parse_goal_data pbp = specVariantB pbp := by
  simp only [parse_goal_data, specVariantB, goalLoop_eq_filterMap]

/-! ## Claim C3: the two variants agree on equivalently expressed games -/

/-- Converting the event form of a landing goal entry with Variant B's
per-event conversion gives exactly Variant A's conversion of the entry,
with the hard failure flattened to a skip. -/
theorem convGoalB_eventOfGoal (r : LandingResponse) (pt : String) (g : GoalInfo) :
    convGoalB (eventOfGoal r pt g) = (convGoalA r g).toOption := by
  simp only [convGoalB, eventOfGoal, convGoalA]
  cases sideOfString g.homeTeamDefendingSide <;> rfl

/-- The retain predicate of Variant B keeps the event form of a landing
goal entry exactly when its period is not the shootout. -/
theorem keepPlay_eventOfGoal (r : LandingResponse) (pt : String) (g : GoalInfo) :
    keepPlay (eventOfGoal r pt g) = decide (pt ≠ "SO") := by
  simp [keepPlay, eventOfGoal]

/-- Filtering the event forms of one period's goals with Variant B's retain
predicate keeps all of them outside the shootout and none inside it. -/
theorem filter_keep_eventOfGoal (r : LandingResponse) (pt : String)
    (gs : List GoalInfo) :
    (gs.map (eventOfGoal r pt)).filter keepPlay
      = if pt = "SO" then [] else gs.map (eventOfGoal r pt) := by
  induction gs with
  | nil => simp
  | cons g gs ih =>
    by_cases h : pt = "SO" <;>
      simp [List.filter_cons, keepPlay_eventOfGoal, h, ih]

/-- Variant B over the play-by-play form of a landing response computes the
optional-conversion `filterMap` over the flattened non-shootout entries. -/
theorem pbpOfLanding_goals (r : LandingResponse) :
    (parse_goal_data (pbpOfLanding r)).goals
      = ((r.summary.scoring.filter
            (fun p => decide (p.periodDescriptor.periodType ≠ "SO"))).flatMap
          (fun p => p.goals)).filterMap (fun g => (convGoalA r g).toOption) := by
  show goalLoop ((pbpOfLanding r).plays.filter keepPlay) = _
  rw [goalLoop_eq_filterMap]
  simp only [pbpOfLanding]
  induction r.summary.scoring with
  | nil => rfl
  | cons p ps ih =>
    simp only [List.flatMap_cons, List.filter_append, List.filterMap_append,
      filter_keep_eventOfGoal, List.filter_cons]
    by_cases h : p.periodDescriptor.periodType = "SO"
    · have hdrop : decide (p.periodDescriptor.periodType ≠ "SO") = false := by
        simp [h]
      simp only [if_pos h, hdrop, Bool.false_eq_true, if_false,
        List.filterMap_nil, List.nil_append]
      exact ih
    · have hkeep : decide (p.periodDescriptor.periodType ≠ "SO") = true := by
        simp [h]
      simp only [if_neg h, hkeep, if_true, List.flatMap_cons,
        List.filterMap_append]
      rw [ih]
      congr 1
      rw [List.filterMap_map]
      have hfun : (convGoalB ∘ eventOfGoal r p.periodDescriptor.periodType)
          = fun g => (convGoalA r g).toOption := by
        funext g
        exact convGoalB_eventOfGoal r p.periodDescriptor.periodType g
      rw [hfun]

/-- When `mapOrFail` succeeds, every element converts, so the
`filterMap` of the flattened optional conversion is the same list. -/
theorem mapOrFail_ok_filterMap (f : α → Except String β) :
    ∀ (l : List α) (ys : List β), mapOrFail f l = .ok ys →
      l.filterMap (fun a => (f a).toOption) = ys := by
  intro l
  induction l with
  | nil =>
    intro ys h
    simp only [mapOrFail] at h
    simpa [List.filterMap_nil] using (Except.ok.inj h)
  | cons a as ih =>
    intro ys h
    simp only [mapOrFail] at h
    cases hfa : f a with
    | error e => rw [hfa] at h; exact Except.noConfusion h
    | ok b =>
      rw [hfa] at h
      cases hrest : mapOrFail f as with
      | error e => rw [hrest] at h; exact Except.noConfusion h
      | ok bs =>
        rw [hrest] at h
        have hys : b :: bs = ys := Except.ok.inj h
        subst hys
        rw [List.filterMap_cons]
        have hfa2 : (f a).toOption = some b := by rw [hfa]; rfl
        simp only [hfa2]
        rw [ih bs hrest]

/-- Claim C3: a game expressed equivalently in both upstream shapes — the
play-by-play form carrying, for each landing goal entry in order, a
`"goal"` event with the same event id, period type, defending-side string
and tracking URL, and whose nested details own the team the `isHome` flag
denotes — yields, when Variant A succeeds, goal lists with identical event
ids, scoring team ids and defending sides in the same order (and the same
home team id). -/
theorem c3_variants_agree (r : LandingResponse) (g : GameExportData)
    (h : extract_export_game_data r = .ok g) :
    (parse_goal_data (pbpOfLanding r)).goals.map
        (fun d => (d.event_id, d.scoring_team_id, d.home_team_defending_side))
      = g.goals.map
        (fun d => (d.event_id, d.scoring_team_id, d.home_team_defending_side))
    ∧ (parse_goal_data (pbpOfLanding r)).home_team_id = g.home_team_id := by
  simp only [extract_export_game_data] at h
  cases hL : extractLoop r r.summary.scoring with
  | error e => rw [hL] at h; exact Except.noConfusion h
  | ok gs =>
    rw [hL] at h
    have hg : { goals := gs, home_team_id := r.homeTeam.id : GameExportData } = g :=
      Except.ok.inj h
    subst hg
    rw [extractLoop_eq_mapOrFail] at hL
    have hgoals : (parse_goal_data (pbpOfLanding r)).goals = gs := by
      rw [pbpOfLanding_goals]
      exact mapOrFail_ok_filterMap (convGoalA r) _ gs hL
    exact ⟨by rw [hgoals], rfl⟩

/-- Witness for C3: a game with one regulation goal and one shootout goal
yields the same projected goal list through both variants. -/
theorem c3_variants_agree_witness :
    (parse_goal_data (pbpOfLanding
        ⟨1, 20242025, "2024-10-29", ⟨10⟩, ⟨19⟩,
          ⟨[⟨⟨"REG"⟩, [⟨12, some "u", "right", false⟩]⟩,
            ⟨⟨"SO"⟩, [⟨486, none, "right", false⟩]⟩]⟩⟩)).goals.map
        (fun d => (d.event_id, d.scoring_team_id, d.home_team_defending_side))
      = [(12, 19, IceSide.Right)] := by
  rw [(c3_variants_agree
      ⟨1, 20242025, "2024-10-29", ⟨10⟩, ⟨19⟩,
        ⟨[⟨⟨"REG"⟩, [⟨12, some "u", "right", false⟩]⟩,
          ⟨⟨"SO"⟩, [⟨486, none, "right", false⟩]⟩]⟩⟩
      ⟨[⟨12, some "u", 19, IceSide.Right⟩], 10⟩ (by decide)).1]
  decide

/-! ## Claim C4: bounded-period construction -/

/-- Claim C4: `WeekOrShorterPeriod::try_new` succeeds exactly when the day
difference `end − start` is between 0 and 6 inclusive; on success
`get_start_date` returns the start date formatted `YYYY-MM-DD`; otherwise
construction fails with the `InvalidPeriod` error message. -/
theorem c4_bounded_period (s e : Date) :
    ((WeekOrShorterPeriod.try_new s e).isOk = true
        ↔ (0 ≤ e.toDays - s.toDays ∧ e.toDays - s.toDays ≤ 6))
    ∧ (∀ p, WeekOrShorterPeriod.try_new s e = .ok p →
        p.get_start_date = formatYMD s)
    ∧ (¬(0 ≤ e.toDays - s.toDays ∧ e.toDays - s.toDays ≤ 6) →
        WeekOrShorterPeriod.try_new s e
          = .error ("Invalid start and end dates: " ++ formatYMD s ++ " and "
              ++ formatYMD e
              ++ ".  The time period needs to be a week or shorter, but is actually "
              ++ toString (e.toDays - s.toDays + 1) ++ " days")) := by
  by_cases hc : e.toDays - s.toDays ≤ 6 ∧ 0 ≤ e.toDays - s.toDays
  · have hok : WeekOrShorterPeriod.try_new s e
        = .ok { start_date := s, end_date := e } := by
      simp only [WeekOrShorterPeriod.try_new]
      rw [if_pos hc]
    refine ⟨iff_of_true (by rw [hok]; rfl) ⟨hc.2, hc.1⟩, ?_, ?_⟩
    · intro p hp
      rw [hok] at hp
      cases Except.ok.inj hp
      rfl
    · intro hn
      exact absurd ⟨hc.2, hc.1⟩ hn
  · have herr : WeekOrShorterPeriod.try_new s e
        = .error ("Invalid start and end dates: " ++ formatYMD s ++ " and "
            ++ formatYMD e
            ++ ".  The time period needs to be a week or shorter, but is actually "
            ++ toString (e.toDays - s.toDays + 1) ++ " days") := by
      simp only [WeekOrShorterPeriod.try_new]
      rw [if_neg hc]
    refine ⟨iff_of_false ?_ ?_, ?_, fun _ => herr⟩
    · rw [herr]
      simp [Except.isOk, Except.toBool]
    · intro hcon
      exact hc ⟨hcon.2, hcon.1⟩
    · intro p hp
      rw [herr] at hp
      exact Except.noConfusion hp

/-- Witness for C4: a three-day period constructs, and its start key is
`2024-12-01`. -/
theorem c4_bounded_period_witness :
    (WeekOrShorterPeriod.mk ⟨2024, 12, 1⟩ ⟨2024, 12, 3⟩).get_start_date
      = "2024-12-01" :=
  (c4_bounded_period ⟨2024, 12, 1⟩ ⟨2024, 12, 3⟩).2.1
    (WeekOrShorterPeriod.mk ⟨2024, 12, 1⟩ ⟨2024, 12, 3⟩) (by decide)

/-! ## Claim C5: schedule lookup post-filters the returned days -/

/-- When every returned day's date string parses, the day loop keeps
exactly the games of the days within the period, in upstream day order
then upstream game order. -/
theorem collectGames_eq_filter (week : WeekOrShorterPeriod) :
    ∀ (days : List GameDaySchedule),
      (∀ d ∈ days, (parseDateStr d.date).isSome) →
      collectGames week days
        = .ok ((days.filter (dayKept week)).flatMap (fun d => d.games)) := by
  intro days
  induction days with
  | nil => intro _; rfl
  | cons day days ih =>
    intro h
    have hd : (parseDateStr day.date).isSome = true := h day (by simp)
    obtain ⟨dt, hdt⟩ := Option.isSome_iff_exists.mp hd
    have hrest := ih (fun d hd2 => h d (by simp [hd2]))
    simp only [collectGames, hdt, hrest]
    by_cases hw : week.within dt = true
    · have hkept : dayKept week day = true := by simp [dayKept, hdt, hw]
      simp [List.filter_cons, hkept, hw]
    · have hw2 : week.within dt = false := by
        cases hb : week.within dt
        · rfl
        · exact absurd hb hw
      have hkept : dayKept week day = false := by simp [dayKept, hdt, hw2]
      simp [List.filter_cons, hkept, hw2]

/-- Claim C5: on a decoded schedule response all of whose day dates parse,
`get_game_ids_period` returns exactly the games of the days whose date is
`within` the period (upstream day order, then upstream game order within a
day); and `within` is the inclusive containment `start ≤ date ≤ end`. -/
theorem c5_schedule_lookup (resp : ScheduleResponse) (week : WeekOrShorterPeriod)
    (h : ∀ d ∈ resp.gameWeek, (parseDateStr d.date).isSome) :
    get_game_ids_period (.ok resp) week
        = .ok ((resp.gameWeek.filter (dayKept week)).flatMap (fun d => d.games))
    ∧ (∀ (w : WeekOrShorterPeriod) (d : Date),
        w.within d = true
          ↔ (w.start_date.toDays ≤ d.toDays ∧ d.toDays ≤ w.end_date.toDays)) := by
  refine ⟨collectGames_eq_filter week resp.gameWeek h, ?_⟩
  intro w d
  simp [WeekOrShorterPeriod.within]

/-- Witness for C5: of two returned days, only the one inside the period
contributes its game. -/
theorem c5_schedule_lookup_witness :
    get_game_ids_period
        (.ok ⟨[⟨"2025-05-02", [⟨101, 20242025, "t", "+00:00"⟩]⟩,
               ⟨"2025-05-09", [⟨202, 20242025, "t", "+00:00"⟩]⟩]⟩)
        ⟨⟨2025, 5, 1⟩, ⟨2025, 5, 7⟩⟩
      = .ok [⟨101, 20242025, "t", "+00:00"⟩] := by
  rw [(c5_schedule_lookup
    ⟨[⟨"2025-05-02", [⟨101, 20242025, "t", "+00:00"⟩]⟩,
      ⟨"2025-05-09", [⟨202, 20242025, "t", "+00:00"⟩]⟩]⟩
    ⟨⟨2025, 5, 1⟩, ⟨2025, 5, 7⟩⟩ (by decide)).1]
  decide

/-! ## Claim C9: failure handling of the schedule lookup -/

/-- Counterexample to C9 as stated: a returned day whose date string is
not a valid `YYYY-MM-DD` date makes `get_game_ids_period` panic (the
source's `expect`), not return an error. -/
theorem c9_counterexample :
    get_game_ids_period (.ok ⟨[⟨"garbage", []⟩]⟩) ⟨⟨2025, 5, 1⟩, ⟨2025, 5, 7⟩⟩
      = .crash "Invalid date: garbage" := by decide

/-- Any day with an unparseable date string anywhere in the response makes
the day loop panic. -/
theorem collectGames_crash (week : WeekOrShorterPeriod) :
    ∀ (days : List GameDaySchedule),
      (∃ d ∈ days, parseDateStr d.date = none) →
      ∃ m, collectGames week days = .crash m := by
  intro days
  induction days with
  | nil =>
    rintro ⟨d, hd, _⟩
    cases hd
  | cons day days ih =>
    rintro ⟨d, hd, hnone⟩
    rcases List.mem_cons.mp hd with rfl | hmem
    · exact ⟨"Invalid date: " ++ d.date, by simp [collectGames, hnone]⟩
    · obtain ⟨m, hm⟩ := ih ⟨d, hmem, hnone⟩
      cases hpd : parseDateStr day.date with
      | none => exact ⟨"Invalid date: " ++ day.date, by simp [collectGames, hpd]⟩
      | some dt => exact ⟨m, by simp [collectGames, hpd, hm]⟩

/-- Claim C9 as amended: transport and decode failures of the schedule
fetch are returned as errors (no game list accompanies a failure), but a
returned day whose date string is not a valid date panics rather than
returning an error. -/
theorem c9_amended_failures :
    (∀ (e : String) (week : WeekOrShorterPeriod),
      get_game_ids_period (.error e) week = .err e)
    ∧ (∀ (resp : ScheduleResponse) (week : WeekOrShorterPeriod),
        (∃ d ∈ resp.gameWeek, parseDateStr d.date = none) →
        ∃ m, get_game_ids_period (.ok resp) week = .crash m) := by
  refine ⟨fun e week => rfl, fun resp week hex => ?_⟩
  exact collectGames_crash week resp.gameWeek hex

/-- Witness for the amended C9: a transport failure is returned as an
error, and an invalid day date panics. -/
theorem c9_amended_failures_witness :
    get_game_ids_period (.error "connection refused") ⟨⟨2025, 5, 1⟩, ⟨2025, 5, 1⟩⟩
        = .err "connection refused"
    ∧ ∃ m, get_game_ids_period (.ok ⟨[⟨"2025-13-99", []⟩]⟩)
        ⟨⟨2025, 5, 1⟩, ⟨2025, 5, 1⟩⟩ = .crash m :=
  ⟨c9_amended_failures.1 "connection refused" ⟨⟨2025, 5, 1⟩, ⟨2025, 5, 1⟩⟩,
   c9_amended_failures.2 ⟨[⟨"2025-13-99", []⟩]⟩ ⟨⟨2025, 5, 1⟩, ⟨2025, 5, 1⟩⟩
     ⟨⟨"2025-13-99", []⟩, by simp, by decide⟩⟩

/-! ## Claim C6: the game runner's failure path -/

/-- Counterexample to C6 as stated: on a run whose boxscore fetch fails,
`run_game` aborts at once with a single-cause error; its trace shows it
never attempted Variant-A (landing) extraction, and no fallback extraction
or composed two-cause error follows the failure. -/
theorem c6_counterexample :
    run_game
        { mkdirResult := .ok (), boxscore := .error "boom",
          pbp := .ok ⟨[], 7, 20242025, ⟨10⟩, "2025-05-02"⟩,
          landing := .ok ⟨7, 20242025, "2025-05-02", ⟨10⟩, ⟨19⟩, ⟨[]⟩⟩,
          writeBox := .ok () }
        ⟨7, 20242025, "2025-05-02T00:00:00Z", "+00:00"⟩ "out"
      = { result := .error "Error retrieving boxscore info for game 7: boom",
          trace := [.mkdirCall "out/20242025/2025-05-02/7", .boxscoreCall] }
    ∧ Call.landingCall ∉
        (run_game
          { mkdirResult := .ok (), boxscore := .error "boom",
            pbp := .ok ⟨[], 7, 20242025, ⟨10⟩, "2025-05-02"⟩,
            landing := .ok ⟨7, 20242025, "2025-05-02", ⟨10⟩, ⟨19⟩, ⟨[]⟩⟩,
            writeBox := .ok () }
          ⟨7, 20242025, "2025-05-02T00:00:00Z", "+00:00"⟩ "out").trace := by
  decide

/-- Claim C6 as amended: `run_game` has a single extraction path — it never
consults the landing endpoint (no Variant-A attempt exists to come first),
and a failure of the boxscore fetch or of the play-by-play fetch aborts the
run at once with one error naming that single cause, before any artifact is
written; no second extraction is attempted and no composed error arises. -/
theorem c6_amended_single_path (env : GameEnv) (game : Game) (base : String) :
    Call.landingCall ∉ (run_game env game base).trace
    ∧ (∀ dt e, parseStartTime game.startTimeUTC = some dt →
        env.mkdirResult = .ok () → env.boxscore = .error e →
        run_game env game base
          = { result := .error ("Error retrieving boxscore info for game "
                ++ toString game.id ++ ": " ++ e),
              trace := [.mkdirCall (gamePathOf base game dt), .boxscoreCall] })
    ∧ (∀ dt b e, parseStartTime game.startTimeUTC = some dt →
        env.mkdirResult = .ok () → env.boxscore = .ok b → env.pbp = .error e →
        run_game env game base
          = { result := .error ("Error retrieving play-by-play info for game "
                ++ toString game.id ++ ": " ++ e),
              trace := [.mkdirCall (gamePathOf base game dt), .boxscoreCall,
                        .pbpCall] }) := by
  refine ⟨?_, ?_, ?_⟩
  · unfold run_game
    cases parseStartTime game.startTimeUTC with
    | none => simp
    | some dt =>
      cases env.mkdirResult with
      | error e => simp
      | ok u =>
        cases env.boxscore with
        | error e => simp
        | ok b =>
          cases env.pbp with
          | error e => simp
          | ok pbp =>
            cases env.writeBox with
            | error e =>
              simp only [List.mem_append, List.mem_cons, List.mem_singleton,
                List.mem_map, List.not_mem_nil]
              rintro (h | h | h | ⟨⟨g, _, h⟩ | h⟩) <;> simp_all
            | ok u =>
              simp only [List.mem_append, List.mem_cons, List.mem_singleton,
                List.mem_map, List.not_mem_nil]
              rintro (h | h | h | ⟨⟨g, _, h⟩ | h⟩) <;> simp_all
  · intro dt e h1 h2 h3
    simp only [run_game, h1, h2, h3]
  · intro dt b e h1 h2 h3 h4
    simp only [run_game, h1, h2, h3, h4]

/-- Witness for the amended C6: a failing play-by-play fetch yields the
single-cause error and a trace without any landing call. -/
theorem c6_amended_single_path_witness :
    run_game
        { mkdirResult := .ok (), boxscore := .ok ⟨10⟩,
          pbp := .error "pbp down",
          landing := .ok ⟨7, 20242025, "2025-05-02", ⟨10⟩, ⟨19⟩, ⟨[]⟩⟩,
          writeBox := .ok () }
        ⟨7, 20242025, "2025-05-02T00:00:00Z", "+00:00"⟩ "out"
      = { result := .error "Error retrieving play-by-play info for game 7: pbp down",
          trace := [.mkdirCall "out/20242025/2025-05-02/7", .boxscoreCall,
                    .pbpCall] } := by
  rw [(c6_amended_single_path
      { mkdirResult := .ok (), boxscore := .ok ⟨10⟩, pbp := .error "pbp down",
        landing := .ok ⟨7, 20242025, "2025-05-02", ⟨10⟩, ⟨19⟩, ⟨[]⟩⟩,
        writeBox := .ok () }
      ⟨7, 20242025, "2025-05-02T00:00:00Z", "+00:00"⟩ "out").2.2
      ⟨⟨2025, 5, 2⟩, 0, 0, 0⟩ ⟨10⟩ "pbp down" (by decide) rfl rfl rfl]
  decide

/-! ## Claim C7: the output layout of a successful run -/

/-- Counterexample to C7 as stated: a successful run creates its directory
at `{base}/{season}/{date from the start timestamp}/{game_id}` — neither
`{base}/{date}/{game_id}` with that date, nor the path the source's own
`gameDate` field (`"1999-01-01"` here, deliberately different) would give,
is ever created. -/
theorem c7_counterexample :
    (run_game
        { mkdirResult := .ok (), boxscore := .ok ⟨10⟩,
          pbp := .ok ⟨[], 99, 20242025, ⟨10⟩, "1999-01-01"⟩,
          landing := .error "unused", writeBox := .ok () }
        ⟨99, 20242025, "2025-05-03T00:00:00Z", "+00:00"⟩ "out").result = .ok ()
    ∧ Call.mkdirCall "out/20242025/2025-05-03/99" ∈
        (run_game
          { mkdirResult := .ok (), boxscore := .ok ⟨10⟩,
            pbp := .ok ⟨[], 99, 20242025, ⟨10⟩, "1999-01-01"⟩,
            landing := .error "unused", writeBox := .ok () }
          ⟨99, 20242025, "2025-05-03T00:00:00Z", "+00:00"⟩ "out").trace
    ∧ Call.mkdirCall "out/2025-05-03/99" ∉
        (run_game
          { mkdirResult := .ok (), boxscore := .ok ⟨10⟩,
            pbp := .ok ⟨[], 99, 20242025, ⟨10⟩, "1999-01-01"⟩,
            landing := .error "unused", writeBox := .ok () }
          ⟨99, 20242025, "2025-05-03T00:00:00Z", "+00:00"⟩ "out").trace
    ∧ Call.mkdirCall "out/1999-01-01/99" ∉
        (run_game
          { mkdirResult := .ok (), boxscore := .ok ⟨10⟩,
            pbp := .ok ⟨[], 99, 20242025, ⟨10⟩, "1999-01-01"⟩,
            landing := .error "unused", writeBox := .ok () }
          ⟨99, 20242025, "2025-05-03T00:00:00Z", "+00:00"⟩ "out").trace := by
  decide

/-- Claim C7 as amended: on a successful run, `run_game` derives the game
date by parsing the schedule's UTC start timestamp and shifting it by the
venue UTC offset (falling back to the unshifted UTC date when the offset
fails to parse), and every artifact — the created directory, one tracking
file per goal, and the combined `pbp_boxscore.json` — lives under
`{base}/{season}/{that date}/{game_id}`; directory creation goes through
`create_dir_all`, for which an already-existing path is not an error. -/
theorem c7_amended_output_layout (env : GameEnv) (game : Game) (base : String)
    (dt : DateTimeUtc) (b : BoxscoreInfo) (pbp : PbpResponse)
    (h1 : parseStartTime game.startTimeUTC = some dt)
    (h2 : env.mkdirResult = .ok ())
    (h3 : env.boxscore = .ok b)
    (h4 : env.pbp = .ok pbp)
    (h5 : env.writeBox = .ok ()) :
    run_game env game base
      = { result := .ok (),
          trace := Call.mkdirCall (gamePathOf base game dt)
            :: Call.boxscoreCall :: Call.pbpCall
            :: ((parse_goal_data pbp).goals.map (fun goal =>
                  Call.saveCall (gamePathOf base game dt ++ "/"
                    ++ toString goal.event_id))
              ++ [Call.writeBoxCall (gamePathOf base game dt
                    ++ "/pbp_boxscore.json")]) } := by
  simp only [run_game, h1, h2, h3, h4, h5]
  simp [List.append_assoc, List.cons_append]

/-- Witness for the amended C7: a successful run with one goal writes the
tracking file and the combined file under `out/20242025/2025-05-03/99`. -/
theorem c7_amended_output_layout_witness :
    run_game
        { mkdirResult := .ok (), boxscore := .ok ⟨10⟩,
          pbp := .ok ⟨[⟨90, "right", "goal", some "nhl.com/ev90",
                        some ⟨some 1⟩, ⟨"REG"⟩⟩], 99, 20242025, ⟨10⟩,
                      "2025-05-03"⟩,
          landing := .error "unused", writeBox := .ok () }
        ⟨99, 20242025, "2025-05-03T00:00:00Z", "+00:00"⟩ "out"
      = { result := .ok (),
          trace := [.mkdirCall "out/20242025/2025-05-03/99", .boxscoreCall,
                    .pbpCall, .saveCall "out/20242025/2025-05-03/99/90",
                    .writeBoxCall "out/20242025/2025-05-03/99/pbp_boxscore.json"] } := by
  rw [c7_amended_output_layout
      { mkdirResult := .ok (), boxscore := .ok ⟨10⟩,
        pbp := .ok ⟨[⟨90, "right", "goal", some "nhl.com/ev90",
                      some ⟨some 1⟩, ⟨"REG"⟩⟩], 99, 20242025, ⟨10⟩,
                    "2025-05-03"⟩,
        landing := .error "unused", writeBox := .ok () }
      ⟨99, 20242025, "2025-05-03T00:00:00Z", "+00:00"⟩ "out"
      ⟨⟨2025, 5, 3⟩, 0, 0, 0⟩ ⟨10⟩
      ⟨[⟨90, "right", "goal", some "nhl.com/ev90", some ⟨some 1⟩, ⟨"REG"⟩⟩],
        99, 20242025, ⟨10⟩, "2025-05-03"⟩
      (by decide) rfl rfl rfl rfl]
  decide

/-! ## Claim C8: reversed command-line ranges -/

/-- Claim C8 evaluated on the code at the failing input: a reversed range
is accepted — `parse_date_args` returns `Ok` on it (despite its own doc
comment promising an error), `main` then exits successfully, and the
period loop issues zero schedule queries, so the run ends with no error
and no network activity instead of a rejection. -/
theorem c8_reversed_range_accepted :
    parse_date_args ["2025-05-02", "2025-05-01"]
        = .ok (⟨2025, 5, 2⟩, ⟨2025, 5, 1⟩)
    ∧ mainResult ["2025-05-02", "2025-05-01"] = .ok ()
    ∧ mainScheduleQueries ⟨2025, 5, 2⟩ ⟨2025, 5, 1⟩ = [] := by
  refine ⟨by decide, by decide, ?_⟩
  rw [mainScheduleQueries, strideStarts]
  decide

/-! ## Claim C10: the venue-offset shift -/

/-- Claim C10 evaluated on the code at the failing input: for the offset
`"-10:30"` the source parses the sign only with the hour field and adds
`hours * 60 + minutes = -570` minutes, so a 10:00 UTC start stays on
2025-05-01, while the claim's semantics — the sign applying to hours and
minutes alike, a shift of −630 minutes — moves it to 2025-04-30. -/
theorem c10_offset_sign_dropped_on_minutes :
    adjust_to_local_time ⟨⟨2025, 5, 1⟩, 10, 0, 0⟩ "-10:30" = .ok ⟨2025, 5, 1⟩
    ∧ claimLocalDate ⟨⟨2025, 5, 1⟩, 10, 0, 0⟩ (-1) 10 30 = ⟨2025, 4, 30⟩
    ∧ (⟨2025, 5, 1⟩ : Date) ≠ ⟨2025, 4, 30⟩ := by
  decide

end NHLGT

